import Mathlib

/-!
Verification development for the DatoCMS MCP server's routing, validation and
error-normalization layer.

The embedding models:
* the JSON-like argument values handlers receive (`Val`), with JavaScript
  truthiness and property-lookup semantics;
* the field-creation handler (`createFieldHandler` in
  `src/tools/Schema/.../createFieldHandler.ts`): its business-rule
  pre-validation, appearance normalization, and upstream-error rewriting;
* the record-duplication handler (`duplicateRecordHandler.ts`);
* the project action router (the anonymous tool handler registered by
  `registerProjectRouter` in `src/tools/Project/ProjectRouterTool.ts`).

Thrown JavaScript exceptions are modelled with `Except`: a handler that can
throw returns `Except String α`, and a `try`/`catch` block becomes a `match`
on the `Except` value.  The external DatoCMS client is out of scope (a trusted
collaborator), so its outcome is passed to handler models as an explicit
`Except`/`Option` parameter.
-/

set_option maxRecDepth 8192

namespace DatocmsMcp

/-- JavaScript `String.prototype.includes`, modelled as list-infix on the
character data of the strings. -/
def strContains (s sub : String) : Bool := decide (sub.data <:+: s.data)

/-- JSON-like runtime values: the shape of the untyped argument bags that the
handlers receive (booleans, numbers, strings, arrays, objects, null). -/
inductive Val where
  | null
  | bool (b : Bool)
  | num (n : Int)
  | str (s : String)
  | arr (elems : List Val)
  | obj (fields : List (String × Val))

/-- An untyped JavaScript object: an association list of key/value pairs.
Lookup is last-wins, matching JavaScript object-literal/spread semantics. -/
abbrev Obj := List (String × Val)

/-- Property lookup on an object; `none` models JavaScript `undefined`.
Later entries shadow earlier ones, so `d ++ u` models the spread
`\x7b ...d, ...u \x7d`. -/
def objGet (fields : Obj) (k : String) : Option Val :=
  fields.foldl (fun acc p => if p.1 = k then some p.2 else acc) none

/-- JavaScript truthiness of a value. Arrays and objects are always truthy. -/
def Val.truthy : Val → Bool
  | .null => false
  | .bool b => b
  | .num n => n ≠ 0
  | .str s => s ≠ ""
  | .arr _ => true
  | .obj _ => true

/-- Truthiness of `o.k` where `o` itself may be `undefined`: models guards of
the form `!o || !o.k` in the handler code. -/
def truthyField (o : Option Obj) (k : String) : Bool :=
  match o with
  | none => false
  | some fields =>
    match objGet fields k with
    | none => false
    | some v => v.truthy

/-- Optional-chaining property access `v?.k`: `undefined` on non-objects. -/
def getFieldOf (v : Val) (k : String) : Option Val :=
  match v with
  | .obj fields => objGet fields k
  | _ => none

/-- `Array.isArray` refinement: the element list when `v` is an array. -/
def asArray? (v : Val) : Option (List Val) :=
  match v with
  | .arr l => some l
  | _ => none

mutual
/-- Structural (JavaScript strict) equality of values, used by the enum /
option comparison in the field handler. -/
def valEq : Val → Val → Bool
  | .null, .null => true
  | .bool a, .bool b => a == b
  | .num a, .num b => a == b
  | .str a, .str b => a == b
  | .arr a, .arr b => valListEq a b
  | .obj a, .obj b => valFieldsEq a b
  | _, _ => false
def valListEq : List Val → List Val → Bool
  | [], [] => true
  | a :: as_, b :: bs => valEq a b && valListEq as_ bs
  | _, _ => false
def valFieldsEq : List (String × Val) → List (String × Val) → Bool
  | [], [] => true
  | (ka, va) :: as_, (kb, vb) :: bs => ka == kb && valEq va vb && valFieldsEq as_ bs
  | _, _ => false
end

/-- JSON string escaping of one character (the cases produced by
`JSON.stringify` for the strings appearing in this development). -/
def escChar (c : Char) : List Char :=
  if c = '"' then ['\\', '"']
  else if c = '\\' then ['\\', '\\']
  else if c = '\n' then ['\\', 'n']
  else if c = '\t' then ['\\', 't']
  else if c = '\r' then ['\\', 'r']
  else [c]

/-- JSON string escaping over character lists. -/
def escList : List Char → List Char
  | [] => []
  | c :: cs => escChar c ++ escList cs

/-- JSON string escaping of a string. -/
def escapeJson (s : String) : String := ⟨escList s.data⟩

/-- A JSON string literal: quotes around the escaped content. -/
def jsonQuote (s : String) : String := "\"" ++ escapeJson s ++ "\""

mutual
/-- Compact JSON serialization of a value (whitespace/indentation of
`JSON.stringify(v, null, 2)` is abstracted away; key order is preserved). -/
def renderVal : Val → String
  | .null => "null"
  | .bool b => if b then "true" else "false"
  | .num n => toString n
  | .str s => jsonQuote s
  | .arr l => "[" ++ renderVals l ++ "]"
  | .obj fs => "\x7b" ++ renderFields fs ++ "\x7d"
def renderVals : List Val → String
  | [] => ""
  | [v] => renderVal v
  | v :: w :: rest => renderVal v ++ "," ++ renderVals (w :: rest)
def renderFields : List (String × Val) → String
  | [] => ""
  | [(k, v)] => jsonQuote k ++ ":" ++ renderVal v
  | (k, v) :: w :: rest => jsonQuote k ++ ":" ++ renderVal v ++ "," ++ renderFields (w :: rest)
end

/-- The MCP response envelope produced by `createResponse` /
`createErrorResponse` in `utils/responseHandlers.ts` / `utils/errorHandlers.ts`:
a text content payload plus the error flag. -/
structure Response where
  content : String
  isError : Bool
deriving Repr, DecidableEq

/-- `createResponse`: a success envelope wrapping a text payload. -/
def createResponse (text : String) : Response := ⟨text, false⟩

/-- `createErrorResponse`: an error envelope wrapping a text payload. -/
def createErrorResponse (text : String) : Response := ⟨text, true⟩

/-- The `appearance` argument of the create-field handler:
`\x7b editor, parameters?, addons? \x7d` (TS interface `CreateFieldParams`). -/
structure Appearance where
  editor : String
  parameters : Option Obj
  addons : Option (List Val)

/-- The attribute object dispatched to `client.fields.create`
(`fieldData` in `createFieldHandler.ts`); the extra pass-through field
properties are not tracked as no claim depends on them. -/
structure FieldData where
  field_type : String
  validators : Obj
  appearance : Appearance

/-- The static field-kind → default-editor table (`editorMap` in
`getDefaultEditor`). -/
def editorMap : List (String × String) :=
  [("string", "single_line"),
   ("text", "textarea"),
   ("rich_text", "rich_text"),
   ("structured_text", "structured_text"),
   ("boolean", "boolean"),
   ("integer", "integer"),
   ("float", "float"),
   ("date", "date_picker"),
   ("date_time", "date_time_picker"),
   ("file", "file"),
   ("gallery", "gallery"),
   ("link", "link_select"),
   ("links", "links_select"),
   ("color", "color_picker"),
   ("json", "json_editor"),
   ("lat_lon", "map"),
   ("seo", "seo"),
   ("video", "video"),
   ("slug", "slug"),
   ("single_block", "framed_single_block")]

/-- `getDefaultEditor(fieldType)`: table lookup with `"default_editor"` as the
fallback. -/
def getDefaultEditor (fieldType : String) : String :=
  (((editorMap.find? (fun p => p.1 = fieldType))).map (fun p => p.2)).getD "default_editor"

/-- Error message for a `rich_text` field missing its `rich_text_blocks`
validator (thrown before the client is called). -/
def msgMissingRichTextBlocks : String :=
  "Missing required validator 'rich_text_blocks' for rich_text field. " ++
  "Add \x7b \"rich_text_blocks\": \x7b \"item_types\": [\"block_model_id1\", \"block_model_id2\"] \x7d \x7d to validators."

/-- Error message for a `structured_text` field missing its
`structured_text_blocks` validator. -/
def msgMissingStructuredTextBlocks : String :=
  "Missing required validator 'structured_text_blocks' for structured_text field. " ++
  "Add \x7b \"structured_text_blocks\": \x7b \"item_types\": [] \x7d \x7d to validators."

/-- Error message for a `single_block` field missing its `single_block_blocks`
validator. -/
def msgMissingSingleBlockBlocks : String :=
  "Missing required validator 'single_block_blocks' for single_block field. " ++
  "Add \x7b \"single_block_blocks\": \x7b \"item_types\": [] \x7d \x7d to validators."

/-- Error message for a string radio/select field missing its `enum`
validator; parametrized by the editor name, as in the source template. -/
def msgMissingEnum (editor : String) : String :=
  "Missing required validator 'enum' for string field with " ++ editor ++ " editor. " ++
  "Add \x7b \"enum\": \x7b \"values\": [...] \x7d \x7d to validators, and ensure values match the options."

/-- Error message for enum validator values not matching the radio/select
option values. -/
def msgEnumMismatch : String :=
  "Validator enum values must exactly match the option values in appearance.parameters."

/-- Error message for a `link` field missing its `item_item_type` validator. -/
def msgMissingItemItemType : String :=
  "Missing required validator 'item_item_type' for link field. " ++
  "Add \x7b \"item_item_type\": \x7b \"item_types\": [\"your_item_type_id\"] \x7d \x7d to validators."

/-- Error message for a `link` field whose `item_item_type.item_types` is
missing, not an array, or empty. -/
def msgBadItemTypesArray : String :=
  "The 'item_item_type' validator must include an 'item_types' array with at least one valid item type ID."

/-- Error message for a `links` field missing its `items_item_type` validator. -/
def msgMissingItemsItemType : String :=
  "Missing required validator 'items_item_type' for links field. " ++
  "Add \x7b \"items_item_type\": \x7b \"item_types\": [\"your_item_type_id\"] \x7d \x7d to validators."

/-- Error message for a `links` field whose `items_item_type.item_types` is
missing, not an array, or empty. -/
def msgBadItemsTypesArray : String :=
  "The 'items_item_type' validator must include an 'item_types' array with at least one valid item type ID."

/-- Error message for a `required` validator on gallery/links/rich_text. -/
def msgRequiredNotSupported : String :=
  "The 'required' validator is not supported on gallery, links, or rich_text fields. Remove it from the validators object."

/-- Error message for a `slug` field missing its `slug_title_field` validator. -/
def msgMissingSlugTitleField : String :=
  "Missing required validator 'slug_title_field' for slug field. " ++
  "Add \x7b \"slug_title_field\": \x7b \"title_field_id\": \"<field_id>\" \x7d \x7d to validators."

/-- The parameters of an optional appearance, defaulting to the empty object
(`processedAppearance?.parameters || \x7b\x7d`). -/
def paramsOf (o : Option Appearance) : Obj :=
  match o with
  | some a => a.parameters.getD []
  | none => []

/-- The addons of an optional appearance, defaulting to the empty array
(`processedAppearance?.addons || []`). -/
def addonsOf (o : Option Appearance) : List Val :=
  match o with
  | some a => a.addons.getD []
  | none => []

/-- Whether the appearance is present with a `string_radio_group` or
`string_select` editor. -/
def isRadioOrSelect (o : Option Appearance) : Bool :=
  match o with
  | some a => a.editor = "string_radio_group" || a.editor = "string_select"
  | none => false

/-- The editor of an optional appearance ("" when absent; only used inside
guards that ensure presence). -/
def editorOf (o : Option Appearance) : String :=
  match o with
  | some a => a.editor
  | none => ""

/-- The enum values list when `validators && validators.enum &&
Array.isArray(validators.enum?.values)` holds, `none` otherwise. -/
def enumValuesArr? (validators : Option Obj) : Option (List Val) :=
  match validators with
  | none => none
  | some fields =>
    match objGet fields "enum" with
    | none => none
    | some ev => if ev.truthy then (getFieldOf ev "values").bind asArray? else none

/-- The radio/select option entries:
`(appearance.parameters || \x7b\x7d).radios || ...options || []`.
A truthy non-array value in `radios`/`options` (on which the source's `.map`
would crash) is abstracted to the empty list; no claim exercises that corner. -/
def optionEntries (ps : Obj) : List Val :=
  let fallback :=
    match objGet ps "options" with
    | some v => if v.truthy then (asArray? v).getD [] else []
    | none => []
  match objGet ps "radios" with
  | some v => if v.truthy then (asArray? v).getD [] else fallback
  | none => fallback

/-- Whether the enum validator values mismatch the option values
(`optionValues.length !== enumValues.length || optionValues.some(...)`). -/
def enumMismatchCheck (appearance : Option Appearance) (validators : Option Obj) : Bool :=
  match enumValuesArr? validators with
  | none => false
  | some enumVals =>
    let optVals : List (Option Val) := (optionEntries (paramsOf appearance)).map (fun o => getFieldOf o "value")
    optVals.length ≠ enumVals.length ||
      (List.zip optVals enumVals).any (fun p =>
        match p.1 with
        | some v => !valEq v p.2
        | none => true)

/-- Whether `item_types` under key `k` of the validators is missing, not an
array, or empty (`!Array.isArray(...) || length === 0`); evaluated only under
the guard that `validators?.k` is truthy. -/
def badItemTypes (validators : Option Obj) (k : String) : Bool :=
  match validators with
  | none => false
  | some fields =>
    match objGet fields k with
    | none => false
    | some v =>
      match (getFieldOf v "item_types").bind asArray? with
      | some l => l.isEmpty
      | none => true

/-- Whether `validators.required !== undefined` with `validators` present. -/
def requiredPresent (validators : Option Obj) : Bool :=
  match validators with
  | none => false
  | some fields => (objGet fields "required").isSome

/-- The pre-dispatch phase of `createFieldHandler`: the field-type specific
business-rule validation and appearance normalization, in source order,
ending with the `fieldData` object that is passed to `client.fields.create`.
A `.error` is a thrown `Error` (the client is never called in that case). -/
def createFieldPrepare (ft : String) (validators : Option Obj)
    (appearance : Option Appearance) : Except String FieldData :=
  if ft = "rich_text" ∧ ¬ truthyField validators "rich_text_blocks" then
    .error msgMissingRichTextBlocks
  else if ft = "structured_text" ∧ ¬ truthyField validators "structured_text_blocks" then
    .error msgMissingStructuredTextBlocks
  else if ft = "single_block" ∧ ¬ truthyField validators "single_block_blocks" then
    .error msgMissingSingleBlockBlocks
  else
    -- string + single_line: default the `heading` parameter (in-place mutation
    -- of `appearance` in the source, modelled functionally)
    let appearance1 : Option Appearance :=
      match appearance with
      | some a =>
        if ft = "string" ∧ a.editor = "single_line" then
          match a.parameters with
          | none => some { a with parameters := some [("heading", .bool false)] }
          | some ps =>
            if (objGet ps "heading").isNone then
              some { a with parameters := some (ps ++ [("heading", .bool false)]) }
            else some a
        else some a
      | none => none
    if ft = "string" ∧ isRadioOrSelect appearance1 ∧ ¬ truthyField validators "enum" then
      .error (msgMissingEnum (editorOf appearance1))
    else if ft = "string" ∧ isRadioOrSelect appearance1 ∧ enumMismatchCheck appearance1 validators then
      .error msgEnumMismatch
    else if ft = "link" ∧ ¬ truthyField validators "item_item_type" then
      .error msgMissingItemItemType
    else if ft = "link" ∧ truthyField validators "item_item_type" ∧ badItemTypes validators "item_item_type" then
      .error msgBadItemTypesArray
    else if ft = "links" ∧ ¬ truthyField validators "items_item_type" then
      .error msgMissingItemsItemType
    else if ft = "links" ∧ truthyField validators "items_item_type" ∧ badItemTypes validators "items_item_type" then
      .error msgBadItemsTypesArray
    else if requiredPresent validators ∧ (ft = "gallery" ∨ ft = "links" ∨ ft = "rich_text") then
      .error msgRequiredNotSupported
    else
      -- ensure the addons array is present
      let pa1 : Option Appearance :=
        match appearance1 with
        | some a => if a.addons.isNone then some { a with addons := some [] } else some a
        | none => none
      -- correct the editor name for lat_lon fields
      let pa2 : Option Appearance :=
        match pa1 with
        | some a =>
          if ft = "lat_lon" ∧ a.editor = "lat_lon_editor" then some { a with editor := "map" }
          else some a
        | none => none
      -- force the correct editor and parameters for color fields
      let pa3 : Option Appearance :=
        if ft = "color" then
          some { editor := "color_picker",
                 parameters := some (("enable_alpha", Val.bool false) :: paramsOf pa2),
                 addons := some (addonsOf pa2) }
        else pa2
      -- default parameters for structured text fields
      let pa4 : Option Appearance :=
        if ft = "structured_text" then
          some { editor := "structured_text",
                 parameters := some ([("blocks_start_collapsed", Val.bool false),
                                      ("show_links_target_blank", Val.bool true),
                                      ("show_links_meta_editor", Val.bool true)] ++ paramsOf pa3),
                 addons := some (addonsOf pa3) }
        else pa3
      if ft = "slug" ∧ ¬ truthyField validators "slug_title_field" then
        .error msgMissingSlugTitleField
      else
        .ok { field_type := ft,
              validators := validators.getD [],
              appearance := (pa4.getD { editor := getDefaultEditor ft,
                                        parameters := some [],
                                        addons := some [] }) }

/-- The rewritten message for an upstream error mentioning `item_item_type`. -/
def msgInvalidItemItemType : String :=
  "The item type IDs provided in 'item_item_type' are invalid or inaccessible. Verify the IDs and try again."

/-- The rewritten message for an upstream error mentioning `items_item_type`. -/
def msgInvalidItemsItemType : String :=
  "The item type IDs provided in 'items_item_type' are invalid or inaccessible. Verify the IDs and try again."

/-- The rewritten message for an upstream error mentioning `addons`. -/
def msgAddonsRequired : String :=
  "The 'addons' field is required in appearance object. " ++
  "Always include it, at minimum as an empty array: \x7b \"addons\": [] \x7d"

/-- The rewritten message for an upstream error mentioning `rich_text_blocks`. -/
def msgRichTextBlocksRequired : String :=
  "Rich text fields require the 'rich_text_blocks' validator. " ++
  "Example: \x7b \"rich_text_blocks\": \x7b \"item_types\": [\"block_model_id1\", \"block_model_id2\"] \x7d \x7d"

/-- The rewritten message for an upstream error mentioning `start_collapsed`. -/
def msgStartCollapsed : String :=
  "The 'start_collapsed' parameter is valid for rich_text and single_block fields. " ++
  "For structured_text fields use 'blocks_start_collapsed'. " ++
  "Ensure you only include this parameter with the appropriate field types."

/-- The generic rewritten message for an upstream error on a color field. -/
def msgColorFieldError : String :=
  "Error creating color field. Use appearance.editor 'color_picker' and set parameters.enable_alpha to false."

/-- The multi-issue guidance for upstream `INVALID_FORMAT` / `INVALID_FIELD`
errors (the long template in the source, braces and all). -/
def msgInvalidFormat (ft : String) (editor : Option String) (errorMessage : String) : String :=
  "Error creating field: The field configuration is invalid. \n\n" ++
  "🔴 COMMON ISSUES AND SOLUTIONS:\n\n" ++
  "1. For string fields with \"string_radio_group\" or \"string_select\" appearance:\n" ++
  "   REQUIRED: Matching enum validators\n" ++
  "   \x7b\n     \"validators\": \x7b\n       \"enum\": \x7b\"values\": [\"option_a\", \"option_b\"]\x7d\n     \x7d,\n" ++
  "     \"appearance\": \x7b\n       \"editor\": \"string_radio_group\",\n" ++
  "       \"parameters\": \x7b\"radios\": [\x7b\"label\": \"Option A\", \"value\": \"option_a\"\x7d, \x7b\"label\": \"Option B\", \"value\": \"option_b\"\x7d]\x7d,\n" ++
  "       \"addons\": []\n     \x7d\n   \x7d\n\n" ++
  "2. For location (lat_lon) fields:\n" ++
  "   REQUIRED: Use \"map\" as the editor name\n" ++
  "   \x7b\n     \"field_type\": \"lat_lon\",\n     \"appearance\": \x7b\n       \"editor\": \"map\",\n" ++
  "       \"parameters\": \x7b\x7d,\n       \"addons\": []\n     \x7d\n   \x7d\n\n" ++
  "3. For text fields:\n" ++
  "   REQUIRED: Include empty addons array\n" ++
  "   \x7b\n     \"field_type\": \"text\",\n     \"appearance\": \x7b\n       \"editor\": \"textarea\",\n" ++
  "       \"parameters\": \x7b\"placeholder\": \"Enter text...\"\x7d,\n       \"addons\": []\n     \x7d\n   \x7d\n\n" ++
  "Field Type: " ++ ft ++ "\nEditor: " ++ (editor.getD "not specified") ++
  "\nError Details: " ++ errorMessage

/-- The `catch` block of `createFieldHandler`: substring-matched rewriting of
the extracted upstream error text, in source order.  `appearanceEditor` is
`args.appearance?.editor`, used only by the `INVALID_FORMAT` template. -/
def rewriteFieldError (ft : String) (appearanceEditor : Option String)
    (errorMessage : String) : String :=
  if strContains errorMessage "addons" then msgAddonsRequired
  else if strContains errorMessage "rich_text_blocks" then msgRichTextBlocksRequired
  else if strContains errorMessage "start_collapsed" then msgStartCollapsed
  else if strContains errorMessage "item_item_type" then msgInvalidItemItemType
  else if strContains errorMessage "items_item_type" then msgInvalidItemsItemType
  else if ft = "color" then msgColorFieldError
  else if strContains errorMessage "appearance.editor" then
    if ft = "lat_lon" then
      "Error creating lat_lon field: Make sure you're using \"editor\": \"map\" (not \"lat_lon_editor\") in the appearance. " ++ errorMessage
    else if ft = "json" then
      "Error creating json field: Make sure you're using one of: \"json_editor\", \"string_multi_select\", or \"string_checkbox_group\" as the editor. " ++ errorMessage
    else
      "Error with field editor: Invalid editor for field type " ++ ft ++ ". Check docs/FIELD_CREATION_GUIDE.md for the correct editor names. " ++ errorMessage
  else if strContains errorMessage "INVALID_FORMAT" ∨ strContains errorMessage "INVALID_FIELD" then
    msgInvalidFormat ft appearanceEditor errorMessage
  else "Error creating field: " ++ errorMessage

/-- The field object returned by a successful `client.fields.create`. -/
structure FieldResult where
  id : String
  label : String

/-- The whole `createFieldHandler` body.  `clientResult` is the outcome of the
external `client.fields.create` call (the client is a trusted black box):
`.error m` is a rejection whose extracted error text is `m`.  The handler
returns `.error` exactly where the source throws; the client outcome is
consulted only when `createFieldPrepare` succeeds. -/
def createFieldHandler (ft : String) (validators : Option Obj)
    (appearance : Option Appearance)
    (clientResult : Except String FieldResult) : Except String Response :=
  match createFieldPrepare ft validators appearance with
  | .error e => .error e
  | .ok _ =>
    match clientResult with
    | .ok field =>
      .ok (createResponse ("Field '" ++ field.label ++ "' created successfully with ID: " ++ field.id))
    | .error errorMessage =>
      .error (rewriteFieldError ft (appearance.map (fun a => a.editor)) errorMessage)

/-! ## Record duplication (`duplicateRecordHandler.ts`) -/

/-- The record returned by `client.items.duplicate`: its `id` attribute plus
`payload`, the opaque `JSON.stringify(duplicatedItem, null, 2)` serialization
of the full record (the record itself comes from the external client and is
not inspected further by the handler). -/
structure DupItem where
  id : String
  payload : String

/-- The confirmation message template of `duplicateRecordHandler`. -/
def duplicateConfirmationMessage (itemId newId : String) : String :=
  "Successfully duplicated record with ID '" ++ itemId ++ "'. New record ID: '" ++ newId ++ "'"

/-- `JSON.stringify(\x7b success: true, message \x7d, null, 2)` as produced in the
confirmation branch of `duplicateRecordHandler`. -/
def duplicateConfirmationJson (message : String) : String :=
  "\x7b\n  \"success\": true,\n  \"message\": " ++ jsonQuote message ++ "\n\x7d"

/-- The body of `duplicateRecordHandler`: `dupResult` is the value returned by
the external `client.items.duplicate(itemId)` call (`none` models a
null/undefined result).  `.error` is a thrown `Error`. -/
def duplicateRecordHandler (itemId : String) (returnOnlyConfirmation : Bool)
    (dupResult : Option DupItem) : Except String Response :=
  match dupResult with
  | none => .error ("Failed to duplicate record with ID '" ++ itemId ++ "'.")
  | some duplicatedItem =>
    if returnOnlyConfirmation then
      .ok (createResponse (duplicateConfirmationJson
        (duplicateConfirmationMessage itemId duplicatedItem.id)))
    else
      .ok (createResponse duplicatedItem.payload)

/-! ## The project action router (`ProjectRouterTool.ts`) -/

/-- A single Zod validation issue: a field path and a message. -/
structure ZodIssue where
  path : List String
  message : String

/-- An exception inside the router pipeline: either a `z.ZodError` carrying
its issues (thrown by `actionSchema.parse`) or any other `Error` carrying its
message text. -/
inductive RouterError where
  | zod (issues : List ZodIssue)
  | generic (msg : String)

/-- `Array.prototype.join(sep)`. -/
def joinLines (sep : String) : List String → String
  | [] => ""
  | [s] => s
  | s :: t :: rest => s ++ sep ++ joinLines sep (t :: rest)

/-- One line of `formatZodError`: `- path.join('.'): message`. -/
def renderZodIssue (i : ZodIssue) : String :=
  "- " ++ joinLines "." i.path ++ ": " ++ i.message

/-- `formatZodError` from `ProjectRouterTool.ts`: one line per issue, joined
with newlines. -/
def formatZodError (issues : List ZodIssue) : String :=
  joinLines "\n" (issues.map renderZodIssue)

/-- Modelled from the spec: `extractDetailedErrorInfo` lives in
`utils/errorHandlers.ts`, which is not under `src/`.  Per the spec's error
taxonomy it extracts the human-readable message text of a thrown error; on
this explicit error model it returns the carried message (rendering Zod
issues via their formatted lines). -/
def extractDetailedErrorInfo : RouterError → String
  | .generic m => m
  | .zod issues => formatZodError issues

/-- The primitive/shape kinds of the spec's Validation Engine (§4.2). -/
inductive FieldKind where
  | str
  | num
  | boolean
  | object
  | array
  | anyKind

/-- One declared schema field: name, kind, and whether it is required.
Modelled from the spec: the per-action Zod schemas live in `schemas.ts`,
which is not under `src/`; §4.2 describes them as declarative descriptions of
required/optional fields and their primitive/nested shape. -/
structure SchemaField where
  name : String
  kind : FieldKind
  required : Bool

/-- A parameter schema: the declared fields of one action. -/
abbrev Schema := List SchemaField

/-- Whether a value conforms to a declared field kind. -/
def conformKind : FieldKind → Val → Bool
  | .anyKind, _ => true
  | .str, .str _ => true
  | .num, .num _ => true
  | .boolean, .bool _ => true
  | .object, .obj _ => true
  | .array, .arr _ => true
  | _, _ => false

/-- The issue produced by one declared field against the argument bag:
`Required` when a required field is absent, `Invalid type` when a present
field does not conform; `none` when the field is fine. -/
def fieldIssue (args : Obj) (f : SchemaField) : Option ZodIssue :=
  match objGet args f.name with
  | none => if f.required then some ⟨[f.name], "Required"⟩ else none
  | some v => if conformKind f.kind v then none else some ⟨[f.name], "Invalid type"⟩

/-- Modelled from the spec: the Validation Engine (§4.2) — the external Zod
library's `actionSchema.parse`.  It checks every declared field for presence
(if required) and shape conformance, produces one `(path, message)` issue per
violating field, passes unknown extra fields through untouched, and throws a
`ZodError` carrying all the issues on failure. -/
def validateSpec (schema : Schema) (args : Obj) : Except RouterError Obj :=
  match schema.filterMap (fieldIssue args) with
  | [] => .ok args
  | issues => .error (.zod issues)

/-- Rendering of a field kind inside the schema dump. -/
def renderFieldKind : FieldKind → String
  | .str => "string"
  | .num => "number"
  | .boolean => "boolean"
  | .object => "object"
  | .array => "array"
  | .anyKind => "any"

/-- Rendering of one declared field inside the schema dump. -/
def renderSchemaField (f : SchemaField) : String :=
  "\"" ++ f.name ++ "\": \x7b \"type\": \"" ++ renderFieldKind f.kind ++
    "\", \"required\": " ++ (if f.required then "true" else "false") ++ " \x7d"

/-- `formatSchemaForDisplay` from `ProjectRouterTool.ts`: a rendering of the
full expected schema shape plus the guidance note.  The underlying
`schema.describe()` comes from the external Zod library; modelled from the
spec as a field-by-field dump of the declared schema. -/
def formatSchemaForDisplay (schema : Schema) : String :=
  "\x7b\n  " ++ joinLines ",\n  " (schema.map renderSchemaField) ++
  ",\n  \"note\": \"For more detailed parameter information, use the 'datocms_parameters' tool\"\n\x7d"

/-- Modelled from the spec: `projectActionsList` lives in `schemas.ts` (not
under `src/`); the router's dispatch switch and action-args type map name
exactly these two project actions. -/
def projectActionsList : List String := ["get_info", "update_site_settings"]

/-- The parameter-discovery guidance message returned for an empty argument
bag (`⚠️ PARAMETERS REQUIRED ...`). -/
def paramsGuidanceMsg (action : String) : String :=
  "⚠️ PARAMETERS REQUIRED: You need to specify the parameters for the '" ++ action ++
  "' action. ⚠️\n\nTo get the required parameters, use the datocms_parameters tool first with:\n\x7b\n  \"resource\": \"project\",\n  \"action\": \"" ++
  action ++ "\"\n\x7d\n\nThis will show you all the required parameters and their types."

/-- The unsupported-action message enumerating the valid actions. -/
def unsupportedActionMsg (action : String) : String :=
  "Error: Unsupported action '" ++ action ++ "'. Valid actions are: " ++
  joinLines ", " projectActionsList

/-- `action.toUpperCase()` (the router's actions are ASCII). -/
def jsToUpper (s : String) : String := ⟨s.data.map Char.toUpper⟩

/-- The validation-error payload built in the router's `ZodError` branch:
the formatted violation lines plus the full expected schema shape. -/
def validationErrorMsg (action : String) (schema : Schema) (issues : List ZodIssue) : String :=
  "⚠️ VALIDATION ERROR: Your parameters for '" ++ action ++
  "' are incorrect or incomplete! ⚠️\n\n" ++
  formatZodError issues ++
  "\n\nREQUIRED PARAMETERS FOR '" ++ jsToUpper action ++ "' ACTION:\n" ++
  formatSchemaForDisplay schema ++
  "\n\nTo see proper documentation, use the 'datocms_parameters' tool first with:\n\n  action: \"datocms_parameters\",\n  args: \x7b\n    resource: \"project\",\n    action: \"" ++
  action ++ "\"\n  \x7d"

/-- A field-level validation error inside a typed handler result. -/
structure ValidationErr where
  field : Option String
  message : String

/-- The possible shapes of a handler's return value, as discriminated by the
router's normalization code: a pre-built envelope (`'content' in result`), a
typed `\x7b success, data?, message?, error?, validationErrors? \x7d` result
(`'success' in result`), or any other raw value. -/
inductive HandlerOut where
  | response (r : Response)
  | typed (success : Bool) (data : Option Val) (message : Option String)
      (error : Option String) (validationErrors : List ValidationErr)
  | raw (v : Val)

/-- JavaScript `o || d` on an optional string: the string when truthy
(present and non-empty), the default otherwise. -/
def strOr (o : Option String) (d : String) : String :=
  match o with
  | some s => if s = "" then d else s
  | none => d

/-- `handlerResult.data || \x7b\x7d`: the data value when truthy, else the empty
object. -/
def dataOrEmpty (o : Option Val) : Val :=
  match o with
  | some v => if v.truthy then v else .obj []
  | none => .obj []

/-- The router's result-normalization block (lines 100–136 of
`ProjectRouterTool.ts`): pass pre-built envelopes through; render typed
success as pretty-printed data optionally followed by the message; render
typed failure as the error plus the bulleted validation-error list; serialize
anything else. -/
def normalizeHandlerResult : HandlerOut → Response
  | .response r => r
  | .typed success data message error vErrs =>
    if success then
      let responseContent := renderVal (dataOrEmpty data)
      createResponse
        (match message with
         | some m => if m ≠ "" then responseContent ++ "\n\n" ++ m else responseContent
         | none => responseContent)
    else
      if ¬ vErrs.isEmpty then
        createErrorResponse (strOr error "Validation failed" ++ "\n\nValidation errors:\n" ++
          joinLines "\n" (vErrs.map (fun e => "  - " ++ strOr e.field "General" ++ ": " ++ e.message)))
      else
        createErrorResponse (strOr error "Unknown error occurred")
  | .raw v => createResponse (renderVal v)

/-- The body of the router handler up to (and including) the inner
`try`/`catch` around validation, dispatch and normalization.  The schema
registry, the validation engine and the two action handlers are passed in
explicitly: they are imported from other modules in the source.  The
`assertNever` default branch of the dispatch switch throws, per
`utils/exhaustive.ts`'s contract (spec §4.4 step 4). -/
def routeProjectBody (action : String) (args : Obj)
    (schemas : String → Option Schema)
    (validate : Schema → Obj → Except RouterError Obj)
    (hGetInfo hUpdate : Obj → Except RouterError HandlerOut) :
    Except RouterError Response :=
  if args.isEmpty then
    .ok (createErrorResponse (paramsGuidanceMsg action))
  else
    match schemas action with
    | none => .ok (createErrorResponse (unsupportedActionMsg action))
    | some actionSchema =>
      let inner : Except RouterError Response :=
        match validate actionSchema args with
        | .error e => .error e
        | .ok validatedArgs =>
          let dispatched : Except RouterError HandlerOut :=
            if action = "get_info" then hGetInfo validatedArgs
            else if action = "update_site_settings" then hUpdate validatedArgs
            else .error (.generic ("Unhandled project action: " ++ action))
          match dispatched with
          | .error e => .error e
          | .ok out => .ok (normalizeHandlerResult out)
      match inner with
      | .ok r => .ok r
      | .error (.zod issues) =>
        .ok (createErrorResponse (validationErrorMsg action actionSchema issues))
      | .error (.generic m) =>
        .ok (createErrorResponse ("Error validating arguments: " ++
          extractDetailedErrorInfo (.generic m)))

/-- The complete router handler registered by `registerProjectRouter`: the
body wrapped in the outer `try`/`catch`.  A `.error` result would be an
exception escaping to the MCP transport layer. -/
def routeProject (action : String) (args : Obj)
    (schemas : String → Option Schema)
    (validate : Schema → Obj → Except RouterError Obj)
    (hGetInfo hUpdate : Obj → Except RouterError HandlerOut) :
    Except RouterError Response :=
  match routeProjectBody action args schemas validate hGetInfo hUpdate with
  | .ok r => .ok r
  | .error e =>
    .ok (createErrorResponse ("Error in Project Router: " ++ extractDetailedErrorInfo e))

/-! ## Helper lemmas -/

lemma strContains_iff {s sub : String} : strContains s sub = true ↔ sub.data <:+: s.data := by
  simp [strContains]

lemma strContains_self (s : String) : strContains s s = true := by
  rw [strContains_iff]

lemma strContains_append_left (s t sub : String) (h : strContains s sub = true) :
    strContains (s ++ t) sub = true := by
  rw [strContains_iff] at h ⊢
  rw [String.data_append]
  exact h.trans ⟨[], t.data, by simp⟩

lemma strContains_append_right (s t sub : String) (h : strContains t sub = true) :
    strContains (s ++ t) sub = true := by
  rw [strContains_iff] at h ⊢
  rw [String.data_append]
  exact h.trans ⟨s.data, [], by simp⟩

lemma strContains_joinLines (sep : String) (l : List String) (s : String) (h : s ∈ l) :
    strContains (joinLines sep l) s = true := by
  induction l with
  | nil => cases h
  | cons x rest ih =>
    cases rest with
    | nil =>
      rcases List.mem_cons.mp h with h1 | h1
      · rw [h1]
        simpa only [joinLines] using strContains_self x
      · cases h1
    | cons y t =>
      rcases List.mem_cons.mp h with h1 | h1
      · rw [h1]
        simp only [joinLines]
        exact strContains_append_left _ _ _ (strContains_append_left _ _ _ (strContains_self x))
      · simp only [joinLines]
        exact strContains_append_right _ _ _ (ih h1)

lemma objGet_foldl_init (k : String) (l : Obj) (init : Option Val) :
    l.foldl (fun acc p => if p.1 = k then some p.2 else acc) init =
      match objGet l k with
      | some v => some v
      | none => init := by
  induction l generalizing init with
  | nil => simp [objGet]
  | cons p t ih =>
    simp only [objGet, List.foldl_cons] at *
    rw [ih (if p.1 = k then some p.2 else init), ih (if p.1 = k then some p.2 else none)]
    cases hX : List.foldl (fun acc p => if p.1 = k then some p.2 else acc) none t with
    | none => by_cases hp : p.1 = k <;> simp [hp]
    | some v => simp

lemma objGet_cons_self (k : String) (v : Val) (l : Obj) :
    objGet ((k, v) :: l) k = some ((objGet l k).getD v) := by
  show l.foldl (fun acc p => if p.1 = k then some p.2 else acc) (if k = k then some v else none) =
    some ((objGet l k).getD v)
  rw [if_pos rfl, objGet_foldl_init]
  cases objGet l k <;> simp

lemma escList_append (a b : List Char) : escList (a ++ b) = escList a ++ escList b := by
  induction a with
  | nil => simp [escList]
  | cons c t ih => simp [escList, ih]

lemma escapeJson_append (s t : String) : escapeJson (s ++ t) = escapeJson s ++ escapeJson t := by
  show String.mk (escList (s ++ t).data) = String.mk (escList s.data) ++ String.mk (escList t.data)
  rw [String.data_append, escList_append]
  rfl

/-! ## Claims -/

/-- C1: every invocation of the project router returns a response envelope:
for every action, argument bag, schema registry, validation engine and pair
of handlers — however they fail — the router returns `.ok` (no exception
escapes to the transport layer); moreover any non-Zod error thrown past
schema lookup (by validation or by a handler) is rendered inside the
envelope as the `Error validating arguments` error payload. -/
theorem claim1_router_never_escapes :
    (∀ (action : String) (args : Obj) (schemas : String → Option Schema)
       (validate : Schema → Obj → Except RouterError Obj)
       (hG hU : Obj → Except RouterError HandlerOut),
      ∃ r : Response, routeProject action args schemas validate hG hU = .ok r) ∧
    (∀ (action : String) (args : Obj) (schemas : String → Option Schema)
       (sch : Schema) (hG hU : Obj → Except RouterError HandlerOut) (e : String),
      args ≠ [] → schemas action = some sch →
      routeProject action args schemas (fun _ _ => .error (.generic e)) hG hU =
        .ok (createErrorResponse ("Error validating arguments: " ++ e))) := by
  constructor
  · intro action args schemas validate hG hU
    cases h : routeProjectBody action args schemas validate hG hU with
    | ok r => exact ⟨r, by simp [routeProject, h]⟩
    | error e =>
      exact ⟨createErrorResponse ("Error in Project Router: " ++ extractDetailedErrorInfo e),
        by simp [routeProject, h]⟩
  · intro action args schemas sch hG hU e hne hsch
    have hemp : args.isEmpty = false := by
      cases args with
      | nil => cases hne rfl
      | cons p t => rfl
    simp [routeProject, routeProjectBody, hemp, hsch, extractDetailedErrorInfo]

/-- C1 witness: a concrete invocation where validation throws a generic
error; the router returns the rendered envelope. -/
theorem claim1_router_never_escapes_witness :
    ([(("itemId" : String), Val.null)] ≠ ([] : Obj)) ∧
    (fun _ : String => some ([] : Schema)) "get_info" = some ([] : Schema) ∧
    routeProject "get_info" [("itemId", Val.null)] (fun _ => some [])
        (fun _ _ => .error (.generic "upstream failure"))
        (fun _ => .ok (.raw .null)) (fun _ => .ok (.raw .null)) =
      .ok (createErrorResponse ("Error validating arguments: " ++ "upstream failure")) :=
  ⟨by simp, rfl,
    claim1_router_never_escapes.2 "get_info" [("itemId", Val.null)] (fun _ => some [])
      [] _ _ "upstream failure" (by simp) rfl⟩

/-- C2: calling the project router with an empty argument bag returns the
parameter-discovery guidance response (which directs the caller to the
`datocms_parameters` tool), for every action name and regardless of the
schema registry, validation engine or handlers — so validation is never
attempted and no validation error can be returned on empty input. -/
theorem claim2_empty_args_guidance :
    ∀ (action : String) (schemas : String → Option Schema)
      (validate : Schema → Obj → Except RouterError Obj)
      (hG hU : Obj → Except RouterError HandlerOut),
      routeProject action [] schemas validate hG hU =
        .ok (createErrorResponse (paramsGuidanceMsg action)) ∧
      strContains (paramsGuidanceMsg action) "datocms_parameters" = true := by
  intro action schemas validate hG hU
  constructor
  · rfl
  · unfold paramsGuidanceMsg
    apply strContains_append_left
    apply strContains_append_left
    apply strContains_append_right
    decide

/-- C10: when the external duplicate call returns a null/undefined result,
`duplicateRecordHandler` throws an error naming the original record
identifier (so it never reports success with an absent record), for either
value of the confirmation flag. -/
theorem claim10_duplicate_null_result :
    ∀ (itemId : String) (flag : Bool),
      duplicateRecordHandler itemId flag none =
        .error ("Failed to duplicate record with ID '" ++ itemId ++ "'.") ∧
      strContains ("Failed to duplicate record with ID '" ++ itemId ++ "'.") itemId = true := by
  intro itemId flag
  refine ⟨rfl, ?_⟩
  apply strContains_append_left
  apply strContains_append_right
  exact strContains_self itemId

/-- C3: when a non-empty argument bag fails structural validation, the
router's error envelope contains the `- path: message` line of every
violating field, and also contains the rendering of the full expected schema
shape; in particular, for a schema requiring fields a and b with input
carrying only a, the issue list is exactly the single path b. -/
theorem claim3_validation_error_payload :
    (∀ (action : String) (sch : Schema) (schemas : String → Option Schema)
       (hG hU : Obj → Except RouterError HandlerOut) (args : Obj) (issues : List ZodIssue),
      schemas action = some sch →
      args ≠ [] →
      validateSpec sch args = .error (.zod issues) →
      ∃ r, routeProject action args schemas validateSpec hG hU = .ok r ∧
        r.isError = true ∧
        (∀ i ∈ issues, strContains r.content (renderZodIssue i) = true) ∧
        strContains r.content (formatSchemaForDisplay sch) = true) ∧
    validateSpec [⟨"a", .anyKind, true⟩, ⟨"b", .anyKind, true⟩] [("a", .str "x")] =
      .error (.zod [⟨["b"], "Required"⟩]) := by
  constructor
  · intro action sch schemas hG hU args issues hsch hne hval
    have hemp : args.isEmpty = false := by
      cases args with
      | nil => cases hne rfl
      | cons p t => rfl
    refine ⟨createErrorResponse (validationErrorMsg action sch issues), ?_, rfl, ?_, ?_⟩
    · simp [routeProject, routeProjectBody, hemp, hsch, hval]
    · intro i hi
      show strContains (validationErrorMsg action sch issues) (renderZodIssue i) = true
      unfold validationErrorMsg
      apply strContains_append_left
      apply strContains_append_left
      apply strContains_append_left
      apply strContains_append_left
      apply strContains_append_left
      apply strContains_append_left
      apply strContains_append_left
      apply strContains_append_right
      unfold formatZodError
      exact strContains_joinLines _ _ _ (List.mem_map_of_mem _ hi)
    · show strContains (validationErrorMsg action sch issues) (formatSchemaForDisplay sch) = true
      unfold validationErrorMsg
      apply strContains_append_left
      apply strContains_append_left
      apply strContains_append_left
      apply strContains_append_right
      exact strContains_self _
  · rfl

/-- C3 witness: the a/b schema with input carrying only a, routed through the
project router; the envelope carries the `- b: Required` line and the schema
dump. -/
theorem claim3_witness :
    ((fun _ : String => some ([⟨"a", FieldKind.anyKind, true⟩, ⟨"b", FieldKind.anyKind, true⟩] : Schema)) "get_info" =
      some [⟨"a", FieldKind.anyKind, true⟩, ⟨"b", FieldKind.anyKind, true⟩]) ∧
    ([(("a" : String), Val.str "x")] ≠ ([] : Obj)) ∧
    validateSpec [⟨"a", FieldKind.anyKind, true⟩, ⟨"b", FieldKind.anyKind, true⟩] [("a", Val.str "x")] =
      .error (.zod [⟨["b"], "Required"⟩]) ∧
    (∃ r, routeProject "get_info" [("a", Val.str "x")]
        (fun _ => some [⟨"a", FieldKind.anyKind, true⟩, ⟨"b", FieldKind.anyKind, true⟩])
        validateSpec (fun _ => .ok (.raw .null)) (fun _ => .ok (.raw .null)) = .ok r ∧
      r.isError = true ∧
      (∀ i ∈ [ZodIssue.mk ["b"] "Required"], strContains r.content (renderZodIssue i) = true) ∧
      strContains r.content
        (formatSchemaForDisplay [⟨"a", FieldKind.anyKind, true⟩, ⟨"b", FieldKind.anyKind, true⟩]) = true) :=
  ⟨rfl, by simp, rfl,
    claim3_validation_error_payload.1 "get_info" _ _ _ _ _ _ rfl (by simp) rfl⟩

/-- C4 counterexample: an upstream error text that contains the substring
`item_item_type` but also contains the earlier-checked signature `addons` is
rewritten to the addons message, not to the invalid-item-type message — so
the rewrite is not independent of the surrounding text. -/
theorem claim4_counterexample :
    strContains "ValidationError: addons is missing, item_item_type is wrong" "item_item_type" = true ∧
    createFieldHandler "link"
        (some [("item_item_type", Val.obj [("item_types", Val.arr [Val.str "123"])])]) none
        (.error "ValidationError: addons is missing, item_item_type is wrong") =
      .error msgAddonsRequired ∧
    msgAddonsRequired ≠ msgInvalidItemItemType := by
  refine ⟨by decide, rfl, by decide⟩

/-- C4 (amended): an upstream failure whose extracted error text contains the
substring `item_item_type` is rewritten to the specific invalid-or-
inaccessible item type IDs message — regardless of where the substring
appears — provided the text does not also contain one of the three
signatures checked earlier in the chain (`addons`, `rich_text_blocks`,
`start_collapsed`). -/
theorem claim4_amended_item_item_type_rewrite :
    ∀ (ft : String) (validators : Option Obj) (appearance : Option Appearance)
      (fd : FieldData) (msg : String),
      strContains msg "item_item_type" = true →
      strContains msg "addons" = false →
      strContains msg "rich_text_blocks" = false →
      strContains msg "start_collapsed" = false →
      createFieldPrepare ft validators appearance = .ok fd →
      createFieldHandler ft validators appearance (.error msg) =
        .error msgInvalidItemItemType := by
  intro ft validators appearance fd msg h1 h2 h3 h4 hprep
  simp [createFieldHandler, hprep, rewriteFieldError, h1, h2, h3, h4]

/-- C4 witness: a concrete upstream error text containing `item_item_type`
in the middle of unrelated text, rewritten to the specific message. -/
theorem claim4_amended_witness :
    strContains "FOO item_item_type BAR" "item_item_type" = true ∧
    strContains "FOO item_item_type BAR" "addons" = false ∧
    strContains "FOO item_item_type BAR" "rich_text_blocks" = false ∧
    strContains "FOO item_item_type BAR" "start_collapsed" = false ∧
    createFieldHandler "link"
        (some [("item_item_type", Val.obj [("item_types", Val.arr [Val.str "123"])])]) none
        (.error "FOO item_item_type BAR") =
      .error msgInvalidItemItemType :=
  ⟨by decide, by decide, by decide, by decide,
    claim4_amended_item_item_type_rewrite "link"
      (some [("item_item_type", Val.obj [("item_types", Val.arr [Val.str "123"])])]) none
      { field_type := "link",
        validators := [("item_item_type", Val.obj [("item_types", Val.arr [Val.str "123"])])],
        appearance := { editor := "link_select", parameters := some [], addons := some [] } }
      "FOO item_item_type BAR" (by decide) (by decide) (by decide) (by decide) rfl⟩

/-- C5: for every create-field input of kind color, business-rule validation
succeeds and the field data dispatched to the client has editor
`color_picker`, an `enable_alpha` parameter equal to `false` unless the
caller supplied their own value in `appearance.parameters` (in which case
that value wins), and a present (possibly empty) addons list. -/
theorem claim5_color_field_normalization :
    ∀ (validators : Option Obj) (appearance : Option Appearance),
      ∃ fd, createFieldPrepare "color" validators appearance = .ok fd ∧
        fd.appearance.editor = "color_picker" ∧
        objGet (fd.appearance.parameters.getD []) "enable_alpha" =
          some ((objGet (paramsOf appearance) "enable_alpha").getD (Val.bool false)) ∧
        fd.appearance.addons = some (addonsOf appearance) := by
  intro validators appearance
  refine ⟨{ field_type := "color",
            validators := validators.getD [],
            appearance := { editor := "color_picker",
                            parameters := some (("enable_alpha", Val.bool false) :: paramsOf appearance),
                            addons := some (addonsOf appearance) } }, ?_, rfl, ?_, rfl⟩
  · cases appearance with
    | none => simp [createFieldPrepare, paramsOf, addonsOf]
    | some a =>
      cases h : a.addons with
      | none => simp [createFieldPrepare, paramsOf, addonsOf, h]
      | some l => simp [createFieldPrepare, paramsOf, addonsOf, h]
  · show objGet (("enable_alpha", Val.bool false) :: paramsOf appearance) "enable_alpha" =
      some ((objGet (paramsOf appearance) "enable_alpha").getD (Val.bool false))
    rw [objGet_cons_self]

/-- C6: a create-field input of kind lat_lon whose appearance declares the
deprecated editor identifier `lat_lon_editor` is dispatched with editor
`map`: business-rule validation succeeds and the prepared field data carries
the corrected identifier. -/
theorem claim6_lat_lon_editor_rewrite :
    ∀ (validators : Option Obj) (a : Appearance),
      a.editor = "lat_lon_editor" →
      ∃ fd, createFieldPrepare "lat_lon" validators (some a) = .ok fd ∧
        fd.appearance.editor = "map" := by
  intro validators a h
  refine ⟨{ field_type := "lat_lon",
            validators := validators.getD [],
            appearance := { editor := "map",
                            parameters := a.parameters,
                            addons := some (a.addons.getD []) } }, ?_, rfl⟩
  cases ha : a.addons with
  | none => simp [createFieldPrepare, h, ha]
  | some l => simp [createFieldPrepare, h, ha]

/-- C6 witness: a concrete lat_lon appearance declaring `lat_lon_editor` is
prepared with editor `map`. -/
theorem claim6_witness :
    (Appearance.mk "lat_lon_editor" none none).editor = "lat_lon_editor" ∧
    (∃ fd, createFieldPrepare "lat_lon" none (some ⟨"lat_lon_editor", none, none⟩) = .ok fd ∧
      fd.appearance.editor = "map") :=
  ⟨rfl, claim6_lat_lon_editor_rewrite none ⟨"lat_lon_editor", none, none⟩ rfl⟩

/-- C7: a create-field input of kind rich_text whose validators are absent or
lack a `rich_text_blocks` entry fails — for every possible client outcome,
i.e. without the external client being consulted — with the message naming
the `rich_text_blocks` declaration and containing a JSON example of the
shape to add. -/
theorem claim7_rich_text_requires_blocks :
    ∀ (validators : Option Obj) (appearance : Option Appearance)
      (clientResult : Except String FieldResult),
      (validators = none ∨
        ∃ fields, validators = some fields ∧ objGet fields "rich_text_blocks" = none) →
      createFieldHandler "rich_text" validators appearance clientResult =
        .error msgMissingRichTextBlocks ∧
      strContains msgMissingRichTextBlocks "'rich_text_blocks'" = true ∧
      strContains msgMissingRichTextBlocks
        "\x7b \"rich_text_blocks\": \x7b \"item_types\": [\"block_model_id1\", \"block_model_id2\"] \x7d \x7d" = true := by
  intro validators appearance clientResult h
  have ht : truthyField validators "rich_text_blocks" = false := by
    rcases h with h | ⟨fields, rfl, hf⟩
    · subst h
      rfl
    · simp [truthyField, hf]
  refine ⟨?_, by decide, by decide⟩
  simp [createFieldHandler, createFieldPrepare, ht]

/-- C7 witness: absent validators on a rich_text field, with a client that
would succeed; the handler still fails with the blocks message. -/
theorem claim7_witness :
    ((none : Option Obj) = none ∨
      ∃ fields, (none : Option Obj) = some fields ∧ objGet fields "rich_text_blocks" = none) ∧
    createFieldHandler "rich_text" none none (.ok ⟨"f1", "Body"⟩) =
      .error msgMissingRichTextBlocks :=
  ⟨Or.inl rfl,
    (claim7_rich_text_requires_blocks none none (.ok ⟨"f1", "Body"⟩) (Or.inl rfl)).1⟩

/-- C8: on a successful duplication, `returnOnlyConfirmation = true` yields a
short confirmation envelope that contains both the original and the new
record identifiers (for identifiers needing no JSON escaping) and is
independent of the record's payload — the full duplicated payload is not
part of it; with the flag false, the envelope is exactly the full serialized
payload. -/
theorem claim8_duplicate_confirmation :
    ∀ (itemId : String) (item : DupItem),
      escapeJson itemId = itemId →
      escapeJson item.id = item.id →
      (∃ r, duplicateRecordHandler itemId true (some item) = .ok r ∧
        r = createResponse (duplicateConfirmationJson
              (duplicateConfirmationMessage itemId item.id)) ∧
        strContains r.content itemId = true ∧
        strContains r.content item.id = true ∧
        (∀ payload, duplicateRecordHandler itemId true (some ⟨item.id, payload⟩) = .ok r)) ∧
      duplicateRecordHandler itemId false (some item) = .ok (createResponse item.payload) := by
  intro itemId item hid hnew
  have hmsg : escapeJson (duplicateConfirmationMessage itemId item.id) =
      (((escapeJson "Successfully duplicated record with ID '" ++ itemId) ++
        escapeJson "'. New record ID: '") ++ item.id) ++ escapeJson "'" := by
    unfold duplicateConfirmationMessage
    rw [escapeJson_append, escapeJson_append, escapeJson_append, escapeJson_append, hid, hnew]
  constructor
  · refine ⟨_, rfl, rfl, ?_, ?_, fun payload => rfl⟩
    · show strContains (duplicateConfirmationJson
        (duplicateConfirmationMessage itemId item.id)) itemId = true
      unfold duplicateConfirmationJson jsonQuote
      rw [hmsg]
      apply strContains_append_left
      apply strContains_append_right
      apply strContains_append_left
      apply strContains_append_right
      apply strContains_append_left
      apply strContains_append_left
      apply strContains_append_left
      apply strContains_append_right
      exact strContains_self itemId
    · show strContains (duplicateConfirmationJson
        (duplicateConfirmationMessage itemId item.id)) item.id = true
      unfold duplicateConfirmationJson jsonQuote
      rw [hmsg]
      apply strContains_append_left
      apply strContains_append_right
      apply strContains_append_left
      apply strContains_append_right
      apply strContains_append_left
      apply strContains_append_right
      exact strContains_self item.id
  · rfl

/-- C8 witness: concrete identifiers; the confirmation branch and the
full-payload branch behave as stated. -/
theorem claim8_witness :
    escapeJson "rec_orig" = "rec_orig" ∧
    escapeJson (DupItem.mk "rec_new" "FULL RECORD PAYLOAD").id = "rec_new" ∧
    ((∃ r, duplicateRecordHandler "rec_orig" true (some ⟨"rec_new", "FULL RECORD PAYLOAD"⟩) = .ok r ∧
        r = createResponse (duplicateConfirmationJson
              (duplicateConfirmationMessage "rec_orig" (DupItem.mk "rec_new" "FULL RECORD PAYLOAD").id)) ∧
        strContains r.content "rec_orig" = true ∧
        strContains r.content (DupItem.mk "rec_new" "FULL RECORD PAYLOAD").id = true ∧
        (∀ payload, duplicateRecordHandler "rec_orig" true
            (some ⟨(DupItem.mk "rec_new" "FULL RECORD PAYLOAD").id, payload⟩) = .ok r)) ∧
      duplicateRecordHandler "rec_orig" false (some ⟨"rec_new", "FULL RECORD PAYLOAD"⟩) =
        .ok (createResponse (DupItem.mk "rec_new" "FULL RECORD PAYLOAD").payload)) :=
  ⟨by decide, by decide,
    claim8_duplicate_confirmation "rec_orig" ⟨"rec_new", "FULL RECORD PAYLOAD"⟩
      (by decide) (by decide)⟩

/-- C9: a create-field input of kind link (resp. links) whose
`item_item_type` (resp. `items_item_type`) validator is present (truthy) but
whose `item_types` member is missing, not an array, or an empty array fails
— for every possible client outcome, so before the client is called — with
the message requiring an `item_types` array with at least one item type ID. -/
theorem claim9_item_types_array_required :
    ∀ (fields : Obj) (appearance : Option Appearance)
      (clientResult : Except String FieldResult) (v : Val),
      ((objGet fields "item_item_type" = some v → v.truthy = true →
        ((getFieldOf v "item_types").bind asArray? = none ∨
         (getFieldOf v "item_types").bind asArray? = some []) →
        createFieldHandler "link" (some fields) appearance clientResult =
          .error msgBadItemTypesArray) ∧
       (objGet fields "items_item_type" = some v → v.truthy = true →
        ((getFieldOf v "item_types").bind asArray? = none ∨
         (getFieldOf v "item_types").bind asArray? = some []) →
        createFieldHandler "links" (some fields) appearance clientResult =
          .error msgBadItemsTypesArray)) := by
  intro fields appearance clientResult v
  constructor
  · intro hv htr hbad
    have ht : truthyField (some fields) "item_item_type" = true := by
      simp [truthyField, hv, htr]
    have hb : badItemTypes (some fields) "item_item_type" = true := by
      rcases hbad with h | h <;> simp [badItemTypes, hv, h]
    simp [createFieldHandler, createFieldPrepare, ht, hb]
  · intro hv htr hbad
    have ht : truthyField (some fields) "items_item_type" = true := by
      simp [truthyField, hv, htr]
    have hb : badItemTypes (some fields) "items_item_type" = true := by
      rcases hbad with h | h <;> simp [badItemTypes, hv, h]
    simp [createFieldHandler, createFieldPrepare, ht, hb]

/-- C9 witness: a validator object carrying both keys with an empty
`item_types` array; both the link and the links handler fail as stated. -/
theorem claim9_witness :
    (objGet [("item_item_type", Val.obj [("item_types", Val.arr [])]),
             ("items_item_type", Val.obj [("item_types", Val.arr [])])] "item_item_type" =
       some (Val.obj [("item_types", Val.arr [])])) ∧
    (Val.obj [("item_types", Val.arr [])]).truthy = true ∧
    ((getFieldOf (Val.obj [("item_types", Val.arr [])]) "item_types").bind asArray? = some []) ∧
    createFieldHandler "link"
        (some [("item_item_type", Val.obj [("item_types", Val.arr [])]),
               ("items_item_type", Val.obj [("item_types", Val.arr [])])]) none
        (.ok ⟨"f1", "Rel"⟩) = .error msgBadItemTypesArray ∧
    createFieldHandler "links"
        (some [("item_item_type", Val.obj [("item_types", Val.arr [])]),
               ("items_item_type", Val.obj [("item_types", Val.arr [])])]) none
        (.ok ⟨"f1", "Rel"⟩) = .error msgBadItemsTypesArray :=
  ⟨rfl, rfl, rfl,
    (claim9_item_types_array_required
      [("item_item_type", Val.obj [("item_types", Val.arr [])]),
       ("items_item_type", Val.obj [("item_types", Val.arr [])])] none
      (.ok ⟨"f1", "Rel"⟩) (Val.obj [("item_types", Val.arr [])])).1 rfl rfl (Or.inr rfl),
    (claim9_item_types_array_required
      [("item_item_type", Val.obj [("item_types", Val.arr [])]),
       ("items_item_type", Val.obj [("item_types", Val.arr [])])] none
      (.ok ⟨"f1", "Rel"⟩) (Val.obj [("item_types", Val.arr [])])).2 rfl rfl (Or.inr rfl)⟩

end DatocmsMcp
